import Mathlib

/-!
Shallow embedding of `homework.py`, a Telegram polling bot that repeatedly
queries a homework-review API and forwards status notifications.

Python values flowing through the program (deserialized JSON bodies, homework
records, the loop cursor) are modelled by the inductive type `JValue`.
Python exceptions are modelled by `PyError`, and fallible Python code by
`Except PyError`.  The network is an oracle: each loop iteration receives an
`HttpResult` describing what `requests.get` would have produced, and each
`telegram` delivery receives a `SendOutcome`.  Logging calls are recorded as
`LogEntry` values; `time.sleep` only delays and is not modelled.
-/

/-- Deserialized JSON / Python values handled by the bot. -/
inductive JValue where
  | jnull
  | jbool (b : Bool)
  | jnum (n : Int)
  | jstr (s : String)
  | jarr (xs : List JValue)
  | jobj (fields : List (String × JValue))

/-- Python exceptions that can arise in `homework.py`.  `nameError` covers
`UnboundLocalError` (reading a local variable before assignment);
`otherError` covers exceptions such as `AttributeError` that the script
never names explicitly. -/
inductive PyError where
  | referenceError (msg : String)
  | keyError (msg : String)
  | typeError (msg : String)
  | nameError (msg : String)
  | requestException (msg : String)
  | otherError (msg : String)

/-- One record of the log stream (`logger` / `logging` calls). -/
inductive LogEntry where
  | debug (msg : String)
  | info (msg : String)
  | error (msg : String)
  | critical (msg : String)

/-- Outcome of the network for one `requests.get` call: either a response
arrived (with its status code and already-deserialized JSON body), or the
request itself failed at transport level and `requests.get` raised a
`RequestException`. -/
inductive HttpResult where
  | success (status_code : Nat) (body : JValue)
  | failure (msg : String)

/-- Outcome of one `bot.send_message` delivery attempt. -/
inductive SendOutcome where
  | delivered
  | deliveryError (msg : String)

/-- First-match lookup in a JSON object field list (Python dict access;
dicts have unique keys, so first match is the match). -/
def jlookup : List (String × JValue) → String → Option JValue
  | [], _ => none
  | (k, v) :: rest, key => if k = key then some v else jlookup rest key

/-- Lookup in the verdict table (a Python dict of strings). -/
def lookupVerdict : List (String × String) → String → Option String
  | [], _ => none
  | (k, txt) :: rest, key => if k = key then some txt else lookupVerdict rest key

/-- Substring test, for Python membership `key in someString`. -/
def strContains (s pat : String) : Bool :=
  (List.range (s.length + 1)).any fun i => pat.isPrefixOf (s.drop i)

/-- Python membership test `key in v` for a string key: dict membership
checks keys, list membership checks elements, string membership checks
substrings; other operands raise `TypeError`. -/
def pyContains (v : JValue) (key : String) : Except PyError Bool :=
  match v with
  | .jobj fields => .ok (jlookup fields key).isSome
  | .jarr xs => .ok (xs.any fun x => match x with | .jstr s => s == key | _ => false)
  | .jstr s => .ok (strContains s key)
  | _ => .error (.typeError "argument is not iterable")

/-- Python `v.get(key)`: defined on dicts (defaulting to `None`); any other
receiver raises `AttributeError`. -/
def pyGet (v : JValue) (key : String) : Except PyError JValue :=
  match v with
  | .jobj fields => .ok ((jlookup fields key).getD .jnull)
  | _ => .error (.otherError "object has no attribute get")

/-- Python subscript `v[key]` with a string key: dict lookup raising
`KeyError` when absent; any other receiver raises `TypeError`. -/
def pySubscript (v : JValue) (key : String) : Except PyError JValue :=
  match v with
  | .jobj fields =>
    match jlookup fields key with
    | some x => .ok x
    | none => .error (.keyError key)
  | _ => .error (.typeError "value is not subscriptable with a string key")

/-- Python `str(...)` as used by the f-strings of the script.  Only string
names ever reach the notification template in the analyzed flows; container
values get a shallow placeholder rendering. -/
def pyStr : JValue → String
  | .jstr s => s
  | .jnum n => toString n
  | .jbool true => "True"
  | .jbool false => "False"
  | .jnull => "None"
  | .jarr _ => "<list>"
  | .jobj _ => "<dict>"

/-- `HOMEWORK_VERDICTS` from `homework.py`. -/
def HOMEWORK_VERDICTS : List (String × String) :=
  [("approved", "Работа проверена: ревьюеру всё понравилось. Ура!"),
   ("reviewing", "Работа взята на проверку ревьюером."),
   ("rejected", "Работа проверена: у ревьюера есть замечания.")]

/-- Python membership `homework_status in HOMEWORK_VERDICTS`: dict
membership over string keys; unhashable operands raise `TypeError`,
hashable non-string operands are simply not found. -/
def verdictMember (v : JValue) : Except PyError Bool :=
  match v with
  | .jstr s => .ok (lookupVerdict HOMEWORK_VERDICTS s).isSome
  | .jarr _ => .error (.typeError "unhashable type")
  | .jobj _ => .error (.typeError "unhashable type")
  | _ => .ok false

/-- Python subscript `HOMEWORK_VERDICTS[homework_status]`. -/
def verdictSubscript (v : JValue) : Except PyError String :=
  match v with
  | .jstr s =>
    match lookupVerdict HOMEWORK_VERDICTS s with
    | some verdict => .ok verdict
    | none => .error (.keyError s)
  | _ => .error (.keyError "unknown key")

/-- `check_response` from `homework.py`: `TypeError` when the response is
not a dict, `KeyError` when the key "homeworks" is absent, `TypeError`
when its value is not a list; otherwise returns the list. -/
def check_response (response : JValue) : Except PyError (List JValue) :=
  match response with
  | .jobj fields =>
    match jlookup fields "homeworks" with
    | none => .error (.keyError "Ключа \"homeworks\" в словаре нет")
    | some v =>
      match v with
      | .jarr xs => .ok xs
      | _ => .error (.typeError "По ключу \"homeworks\" не получен список")
  | _ => .error (.typeError "В ответе API нет словаря")

/-- `parse_status` from `homework.py`, transcribed check by check,
including the misspelled message of the first check. -/
def parse_status (homework : JValue) : Except PyError String :=
  match pyContains homework "homework_name" with
  | .error e => .error e
  | .ok false => .error (.keyError "Ключ homevork_name отсустсвует в homework")
  | .ok true =>
    match pyGet homework "homework_name" with
    | .error e => .error e
    | .ok homework_name =>
      match pyContains homework "status" with
      | .error e => .error e
      | .ok false => .error (.keyError "Ключ status отсутствует в homework")
      | .ok true =>
        match pySubscript homework "status" with
        | .error e => .error e
        | .ok homework_status =>
          match verdictMember homework_status with
          | .error e => .error e
          | .ok false =>
            .error (.keyError ("Статус " ++ pyStr homework_status ++ " неизвестен"))
          | .ok true =>
            match verdictSubscript homework_status with
            | .error e => .error e
            | .ok verdict =>
              .ok ("Изменился статус проверки работы \"" ++ pyStr homework_name
                ++ "\". " ++ verdict)

/-- `get_api_answer` from `homework.py`.  `timestamp` is the `from_date`
query parameter of the request; `http` is what the network did with that
request.  On a non-200 status the function raises
`ReferenceError("Статус ответа API не OK")`.  On a transport failure the
`except RequestException` block evaluates
`f-string ... response.status_code` first, but `response` was never
assigned, so the block raises `UnboundLocalError` before logging or
re-raising; the intended `RequestException` is never produced. -/
def get_api_answer (timestamp : JValue) (http : HttpResult) :
    List LogEntry × Except PyError JValue :=
  match http with
  | .success status_code body =>
    if status_code ≠ 200 then
      ([], .error (.referenceError "Статус ответа API не OK"))
    else
      ([.info "Ответ на запрос к API: 200 OK"], .ok body)
  | .failure _ =>
    ([], .error (.nameError "cannot access local variable response"))

/-- Loop-carried state of `main`: the `timestamp` cursor and the current
binding of the local variable `response` (`none` while still unbound, i.e.
before the first successful `requests.get`). -/
structure LoopState where
  timestamp : JValue
  response : Option JValue

/-- Observable result of one `while True` iteration of `main`: the message
texts passed to `send_message` in order, the log records, and either the
next loop state or the uncaught exception that terminates the process. -/
structure IterResult where
  sends : List String
  logs : List LogEntry
  state : Except PyError LoopState

/-- The `except` chain at the bottom of the loop body of `main`, applied to
the exception `e` that escaped the `try` block.  `pre` holds messages sent
earlier in the same iteration, `logs` the log records so far.

The `except ReferenceError` handler re-runs
`parse_status(check_response(response))`: if the local `response` is still
unbound that read raises `UnboundLocalError`; any exception raised by
`check_response` or `parse_status` inside this handler is not caught by the
sibling handlers and escapes the loop.  `KeyError` and `TypeError` are sent
to the chat as a diagnostic and logged.  Any other exception (in
particular the `UnboundLocalError` produced inside `get_api_answer` on a
transport failure) has no handler and escapes the loop. -/
def main_handle (st : LoopState) (e : PyError) (pre : List String)
    (logs : List LogEntry) : IterResult :=
  match e with
  | .referenceError m =>
    match st.response with
    | none =>
      { sends := pre, logs := logs,
        state := .error (.nameError "cannot access local variable response") }
    | some r =>
      match check_response r with
      | .error e2 => { sends := pre, logs := logs, state := .error e2 }
      | .ok xs =>
        match parse_status (.jarr xs) with
        | .error e2 => { sends := pre, logs := logs, state := .error e2 }
        | .ok msg =>
          { sends := pre ++ [msg], logs := logs ++ [.error m], state := .ok st }
  | .keyError m =>
    { sends := pre ++ ["Сбой в работе программы: " ++ m],
      logs := logs ++ [.error m], state := .ok st }
  | .typeError m =>
    { sends := pre ++ ["Сбой в работе программы: " ++ m],
      logs := logs ++ [.error m], state := .ok st }
  | e2 => { sends := pre, logs := logs, state := .error e2 }

/-- One iteration of the `while True` loop of `main` (the trailing
`finally: time.sleep(RETRY_PERIOD)` only delays and is not modelled).  The
local `response` is rebound as soon as `get_api_answer` returns; in the
non-empty branch `parse_status(homework[0])` is evaluated before
`send_message` is called, and `timestamp = response["current_date"]` runs
only after that send. -/
def main_iter (st : LoopState) (http : HttpResult) : IterResult :=
  match get_api_answer st.timestamp http with
  | (glogs, .error e) =>
    main_handle st e [] (LogEntry.debug "Начало итерации, запрос к API" :: glogs)
  | (glogs, .ok body) =>
    match check_response body with
    | .error e =>
      main_handle { st with response := some body } e []
        (LogEntry.debug "Начало итерации, запрос к API" :: glogs)
    | .ok homework =>
      match homework with
      | [] =>
        { sends := ["На данный момент обновлений нет"],
          logs := (LogEntry.debug "Начало итерации, запрос к API" :: glogs)
            ++ [LogEntry.info "Список домашних работ получен",
                LogEntry.info "Новых заданий нет"],
          state := .ok { st with response := some body } }
      | first :: _ =>
        match parse_status first with
        | .error e =>
          main_handle { st with response := some body } e []
            ((LogEntry.debug "Начало итерации, запрос к API" :: glogs)
              ++ [LogEntry.info "Список домашних работ получен"])
        | .ok msg =>
          match pySubscript body "current_date" with
          | .error e =>
            main_handle { st with response := some body } e [msg]
              ((LogEntry.debug "Начало итерации, запрос к API" :: glogs)
                ++ [LogEntry.info "Список домашних работ получен"])
          | .ok ts =>
            { sends := [msg],
              logs := (LogEntry.debug "Начало итерации, запрос к API" :: glogs)
                ++ [LogEntry.info "Список домашних работ получен"],
              state := .ok { timestamp := ts, response := some body } }

/-- Run the loop over a list of per-iteration network outcomes, collecting
every message passed to `send_message`; stops early when an iteration lets
an exception escape (process crash). -/
def run_iters (st : LoopState) : List HttpResult → List String × Except PyError LoopState
  | [] => ([], .ok st)
  | http :: rest =>
    match (main_iter st http).state with
    | .error e => ((main_iter st http).sends, .error e)
    | .ok st2 =>
      let tail := run_iters st2 rest
      ((main_iter st http).sends ++ tail.1, tail.2)

/-- The three environment credentials read at module load
(`PRACTICUM_TOKEN`, `TELEGRAM_TOKEN`, `TELEGRAM_CHAT_ID`); `none` models an
unset variable. -/
structure Config where
  practicum_token : Option String
  telegram_token : Option String
  telegram_chat_id : Option String

/-- Python truthiness of `os.getenv(...)`: `None` and the empty string are
falsy. -/
def truthy : Option String → Bool
  | none => false
  | some s => !s.isEmpty

/-- `check_tokens` from `homework.py`: `all([...])` over the three
credentials; returns `True` on success and falls off the end (returning
`None`) otherwise. -/
def check_tokens (cfg : Config) : Option Bool :=
  if truthy cfg.practicum_token && truthy cfg.telegram_token
      && truthy cfg.telegram_chat_id then
    some true
  else
    none

/-- Startup actions of `main`, in program order: `telegram.Bot` is the
first network-capable call and is reached only after the token check. -/
inductive StartAction where
  | logCritical (msg : String)
  | raiseSystemExit
  | createBot
  | enterLoop (initial : LoopState)

/-- The startup prefix of `main`: `if not check_tokens(): log critical;
raise SystemExit`, else create the bot and enter the loop with
`timestamp = int(time.time())` and the local `response` unbound. -/
def main_startup (cfg : Config) (now : Int) : List StartAction :=
  match check_tokens cfg with
  | some true =>
    [.createBot, .enterLoop { timestamp := .jnum now, response := none }]
  | _ =>
    [.logCritical
        "Отсутствует обязательная переменная окружения.Программа принудительно остановлена.",
     .raiseSystemExit]

/-- The underlying `bot.send_message` call of the Telegram client, which
may raise. -/
def bot_send_message (outcome : SendOutcome) : Except PyError Unit :=
  match outcome with
  | .delivered => .ok ()
  | .deliveryError msg => .error (.otherError msg)

/-- `send_message` from `homework.py`: wraps the delivery call in
`try / except Exception`, logging either success or failure, so it itself
never raises. -/
def send_message (message : String) (outcome : SendOutcome) :
    Except PyError (List LogEntry) :=
  match bot_send_message outcome with
  | .ok _ => .ok [.debug ("Бот отправил сообщение \"" ++ message ++ "\"")]
  | .error e =>
    .ok [.error ("Бот не отправил сообщение: "
      ++ (match e with
          | .otherError msg => msg
          | .referenceError msg => msg
          | .keyError msg => msg
          | .typeError msg => msg
          | .nameError msg => msg
          | .requestException msg => msg))]

/-- Concrete 200 body used for the duplicate-notification run: one approved
homework and a current_date. -/
def c3Body : JValue :=
  .jobj [("homeworks",
            .jarr [.jobj [("homework_name", .jstr "test"),
                          ("status", .jstr "approved")]]),
         ("current_date", .jnum 1)]

/-- Concrete 200 body with an empty homeworks list and a fresh
current_date. -/
def c4Body : JValue := .jobj [("homeworks", .jarr []), ("current_date", .jnum 999)]

/-- Helper: every branch of the except chain that continues the loop keeps
the loop state (cursor and response binding) unchanged. -/
theorem main_handle_ok (st : LoopState) (e : PyError) (pre : List String)
    (logs : List LogEntry) (st2 : LoopState)
    (h : (main_handle st e pre logs).state = .ok st2) : st2 = st := by
  cases e with
  | referenceError m =>
    cases hr : st.response with
    | none => simp [main_handle, hr] at h
    | some r =>
      cases hc : check_response r with
      | error e2 => simp [main_handle, hr, hc] at h
      | ok xs =>
        cases hp : parse_status (.jarr xs) with
        | error e2 => simp [main_handle, hr, hc, hp] at h
        | ok msg =>
          simp [main_handle, hr, hc, hp] at h
          exact h.symm
  | keyError m =>
    simp [main_handle] at h
    exact h.symm
  | typeError m =>
    simp [main_handle] at h
    exact h.symm
  | nameError m => simp [main_handle] at h
  | requestException m => simp [main_handle] at h
  | otherError m => simp [main_handle] at h

/-- Helper: `get_api_answer` returns a deserialized body only when the
network produced a response with status 200 and that body. -/
theorem get_api_answer_ok (timestamp : JValue) (http : HttpResult)
    (glogs : List LogEntry) (body : JValue)
    (h : get_api_answer timestamp http = (glogs, .ok body)) :
    http = .success 200 body := by
  cases http with
  | failure m => simp [get_api_answer] at h
  | success code b =>
    by_cases hc : code = 200
    · subst hc
      simp [get_api_answer] at h
      rw [h.2]
    · simp [get_api_answer, hc] at h

/-- C1: the claim says every fetch/validation failure is logged and the
loop proceeds to the next sleep cycle, the process never terminating from
a single failed poll.  The code violates this: on the very first iteration
a non-200 status makes the `except ReferenceError` handler read the
still-unbound local `response` (uncaught `UnboundLocalError`), and a
transport failure makes `get_api_answer` itself raise an uncaught
`UnboundLocalError`; in both cases the exception escapes the loop and the
process terminates. -/
theorem C1_single_failure_crashes :
    (main_iter { timestamp := .jnum 0, response := none }
        (.success 500 (.jobj []))).state =
      .error (.nameError "cannot access local variable response") ∧
    (main_iter { timestamp := .jnum 0, response := none }
        (.failure "connection error")).state =
      .error (.nameError "cannot access local variable response") :=
  ⟨rfl, rfl⟩

/-- C2: non-200 statuses do raise the "unexpected status" condition and a
200 response is deserialized and returned, but on a transport-level
failure the handler crashes with `UnboundLocalError` while building its
message, instead of producing the claimed "request failed"
(`RequestException`) condition. -/
theorem C2_get_api_answer_behavior :
    get_api_answer (.jnum 0) (.failure "connection refused") =
      ([], .error (.nameError "cannot access local variable response")) ∧
    (∀ body, get_api_answer (.jnum 0) (.success 404 body) =
      ([], .error (.referenceError "Статус ответа API не OK"))) ∧
    (∀ body, get_api_answer (.jnum 0) (.success 200 body) =
      ([.info "Ответ на запрос к API: 200 OK"], .ok body)) :=
  ⟨rfl, fun _ => rfl, fun _ => rfl⟩

/-- C3: the claim says a notification is never a duplicate of the previous
iteration's message.  The code keeps no last-sent message: two consecutive
200 polls returning the same single approved homework make the loop send
the identical status message twice. -/
theorem C3_duplicate_notifications :
    (run_iters { timestamp := .jnum 0, response := none }
      [.success 200 c3Body, .success 200 c3Body]).1 =
      ["Изменился статус проверки работы \"test\". Работа проверена: ревьюеру всё понравилось. Ура!",
       "Изменился статус проверки работы \"test\". Работа проверена: ревьюеру всё понравилось. Ура!"] :=
  rfl

/-- C4 counterexample: a successful poll whose homeworks list is empty
completes the iteration but leaves the cursor at its old value instead of
the server-supplied current_date 999, refuting "updated after every
successful poll". -/
theorem C4_counterexample :
    (main_iter { timestamp := .jnum 0, response := none }
        (.success 200 c4Body)).state =
      .ok { timestamp := .jnum 0, response := some c4Body } ∧
    pySubscript c4Body "current_date" = .ok (.jnum 999) ∧
    JValue.jnum 0 ≠ JValue.jnum 999 := by
  refine ⟨rfl, rfl, ?_⟩
  intro h
  injection h with h2
  exact absurd h2 (by decide)

/-- C9: `send_message` wraps the delivery call in a catch-all handler, so
for every delivery outcome it returns log records and never lets an
exception propagate. -/
theorem C9_send_message_never_raises (message : String) (outcome : SendOutcome) :
    ∃ logs, send_message message outcome = .ok logs := by
  cases outcome <;> exact ⟨_, rfl⟩

/-- C4 amended: the cursor is advanced only by a completed successful poll
whose homeworks list is non-empty (to that response's current_date value);
every other completed iteration, including successful polls with an empty
homeworks list and all handled failures, retains the cursor unchanged. -/
theorem C4_cursor_advance (st : LoopState) (http : HttpResult) (st2 : LoopState)
    (h : (main_iter st http).state = .ok st2) :
    st2.timestamp = st.timestamp ∨
    ∃ body xs ts, http = .success 200 body ∧ check_response body = .ok xs ∧
      xs ≠ [] ∧ pySubscript body "current_date" = .ok ts ∧ st2.timestamp = ts := by
  rcases hg : get_api_answer st.timestamp http with ⟨glogs, gres⟩
  unfold main_iter at h
  rw [hg] at h
  cases gres with
  | error e =>
    have h2 : (main_handle st e []
        (LogEntry.debug "Начало итерации, запрос к API" :: glogs)).state =
        Except.ok st2 := h
    exact Or.inl (by rw [main_handle_ok _ _ _ _ _ h2])
  | ok body =>
    simp only at h
    cases hc : check_response body with
    | error e =>
      rw [hc] at h
      have h2 : (main_handle { st with response := some body } e []
          (LogEntry.debug "Начало итерации, запрос к API" :: glogs)).state =
          Except.ok st2 := h
      have h3 := main_handle_ok _ _ _ _ _ h2
      exact Or.inl (by rw [h3])
    | ok homework =>
      rw [hc] at h
      cases homework with
      | nil =>
        have h2 : Except.ok (LoopState.mk st.timestamp (some body)) =
            Except.ok st2 := h
        injection h2 with h3
        exact Or.inl (by rw [← h3])
      | cons first rest =>
        replace h :
            (match parse_status first with
              | Except.error e =>
                main_handle { st with response := some body } e []
                  ((LogEntry.debug "Начало итерации, запрос к API" :: glogs)
                    ++ [LogEntry.info "Список домашних работ получен"])
              | Except.ok msg =>
                match pySubscript body "current_date" with
                | Except.error e =>
                  main_handle { st with response := some body } e [msg]
                    ((LogEntry.debug "Начало итерации, запрос к API" :: glogs)
                      ++ [LogEntry.info "Список домашних работ получен"])
                | Except.ok ts =>
                  ({ sends := [msg],
                     logs := (LogEntry.debug "Начало итерации, запрос к API" :: glogs)
                       ++ [LogEntry.info "Список домашних работ получен"],
                     state := Except.ok { timestamp := ts, response := some body } }
                    : IterResult)).state = Except.ok st2 := h
        cases hp : parse_status first with
        | error e =>
          rw [hp] at h
          have h2 : (main_handle { st with response := some body } e []
              ((LogEntry.debug "Начало итерации, запрос к API" :: glogs)
                ++ [LogEntry.info "Список домашних работ получен"])).state =
              Except.ok st2 := h
          have h3 := main_handle_ok _ _ _ _ _ h2
          exact Or.inl (by rw [h3])
        | ok msg =>
          rw [hp] at h
          cases hs : pySubscript body "current_date" with
          | error e =>
            rw [hs] at h
            have h2 : (main_handle { st with response := some body } e [msg]
                ((LogEntry.debug "Начало итерации, запрос к API" :: glogs)
                  ++ [LogEntry.info "Список домашних работ получен"])).state =
                Except.ok st2 := h
            have h3 := main_handle_ok _ _ _ _ _ h2
            exact Or.inl (by rw [h3])
          | ok ts =>
            rw [hs] at h
            have h2 : Except.ok (LoopState.mk ts (some body)) = Except.ok st2 := h
            injection h2 with h3
            refine Or.inr ⟨body, first :: rest, ts,
              get_api_answer_ok st.timestamp http glogs body hg, hc, by simp, hs, ?_⟩
            rw [← h3]

/-- C4 witness: a successful poll with an empty homeworks list keeps the
cursor at jnum 5. -/
theorem C4_cursor_advance_witness :
    ({ timestamp := .jnum 5, response := some c4Body } : LoopState).timestamp =
      ({ timestamp := .jnum 5, response := none } : LoopState).timestamp ∨
    ∃ body xs ts, HttpResult.success 200 c4Body = .success 200 body ∧
      check_response body = .ok xs ∧ xs ≠ [] ∧
      pySubscript body "current_date" = .ok ts ∧
      ({ timestamp := .jnum 5, response := some c4Body } : LoopState).timestamp = ts :=
  C4_cursor_advance { timestamp := .jnum 5, response := none }
    (.success 200 c4Body) { timestamp := .jnum 5, response := some c4Body } rfl

/-- C5: over every record shape, `parse_status` raises the missing-field
`KeyError` carrying the missing-homework_name message when homework_name
is absent, the missing-status message when status is absent, and the
unknown-status message when the status is outside the verdict table;
whenever both fields are present and the status is any key of the verdict
table it returns the fixed template combining the name and the canned
verdict; the last conjunct spells the approved-record sentence. -/
theorem C5_parse_status_contract (fields : List (String × JValue))
    (name : String) (nv : JValue) (s verdict : String) :
    (jlookup fields "homework_name" = some (.jstr name) →
      jlookup fields "status" = some (.jstr s) →
      lookupVerdict HOMEWORK_VERDICTS s = some verdict →
      parse_status (.jobj fields) =
        .ok ("Изменился статус проверки работы \"" ++ name ++ "\". " ++ verdict)) ∧
    (jlookup fields "homework_name" = none →
      parse_status (.jobj fields) =
        .error (.keyError "Ключ homevork_name отсустсвует в homework")) ∧
    (jlookup fields "homework_name" = some nv →
      jlookup fields "status" = none →
      parse_status (.jobj fields) =
        .error (.keyError "Ключ status отсутствует в homework")) ∧
    (jlookup fields "homework_name" = some nv →
      jlookup fields "status" = some (.jstr s) →
      lookupVerdict HOMEWORK_VERDICTS s = none →
      parse_status (.jobj fields) =
        .error (.keyError ("Статус " ++ s ++ " неизвестен"))) ∧
    parse_status (.jobj [("homework_name", .jstr name), ("status", .jstr "approved")]) =
      .ok ("Изменился статус проверки работы \"" ++ name
        ++ "\". " ++ "Работа проверена: ревьюеру всё понравилось. Ура!") := by
  refine ⟨?_, ?_, ?_, ?_, ?_⟩
  · intro h1 h2 h3
    simp [parse_status, pyContains, pyGet, pySubscript, verdictMember,
      verdictSubscript, pyStr, h1, h2, h3]
  · intro h
    simp [parse_status, pyContains, h]
  · intro h1 h2
    simp [parse_status, pyContains, pyGet, h1, h2]
  · intro h1 h2 h3
    simp [parse_status, pyContains, pyGet, pySubscript, verdictMember,
      pyStr, h1, h2, h3]
  · simp [parse_status, pyContains, pyGet, pySubscript, verdictMember,
      verdictSubscript, jlookup, lookupVerdict, HOMEWORK_VERDICTS, pyStr]

/-- C5 witness: the contract at concrete records — a reviewing record with
an extra field, a rejected record, each failure condition with its exact
message, and the approved-record sentence. -/
theorem C5_parse_status_witness :
    parse_status (.jobj [("lesson", .jnum 1), ("homework_name", .jstr "Test"),
        ("status", .jstr "reviewing")]) =
      .ok "Изменился статус проверки работы \"Test\". Работа взята на проверку ревьюером." ∧
    parse_status (.jobj [("homework_name", .jstr "Test2"), ("status", .jstr "rejected")]) =
      .ok "Изменился статус проверки работы \"Test2\". Работа проверена: у ревьюера есть замечания." ∧
    parse_status (.jobj [("status", .jstr "approved")]) =
      .error (.keyError "Ключ homevork_name отсустсвует в homework") ∧
    parse_status (.jobj [("homework_name", .jstr "Test")]) =
      .error (.keyError "Ключ status отсутствует в homework") ∧
    parse_status (.jobj [("homework_name", .jstr "Test"), ("status", .jstr "done")]) =
      .error (.keyError "Статус done неизвестен") ∧
    parse_status (.jobj [("homework_name", .jstr "Test"), ("status", .jstr "approved")]) =
      .ok "Изменился статус проверки работы \"Test\". Работа проверена: ревьюеру всё понравилось. Ура!" :=
  ⟨(C5_parse_status_contract
      [("lesson", .jnum 1), ("homework_name", .jstr "Test"), ("status", .jstr "reviewing")]
      "Test" .jnull "reviewing" "Работа взята на проверку ревьюером.").1 rfl rfl rfl,
   (C5_parse_status_contract
      [("homework_name", .jstr "Test2"), ("status", .jstr "rejected")]
      "Test2" .jnull "rejected" "Работа проверена: у ревьюера есть замечания.").1 rfl rfl rfl,
   (C5_parse_status_contract [("status", .jstr "approved")]
      "Test" .jnull "x" "").2.1 rfl,
   (C5_parse_status_contract [("homework_name", .jstr "Test")]
      "Test" (.jstr "Test") "x" "").2.2.1 rfl rfl,
   (C5_parse_status_contract [("homework_name", .jstr "Test"), ("status", .jstr "done")]
      "Test" (.jstr "Test") "done" "").2.2.2.1 rfl rfl rfl,
   (C5_parse_status_contract [] "Test" .jnull "x" "").2.2.2.2⟩

/-- C6: `check_response` fails exactly when the value is not a dict, lacks
the "homeworks" key, or holds a non-list there; on every other input it
returns the homeworks list itself. -/
theorem C6_check_response_contract (v : JValue) :
    ((∃ e, check_response v = .error e) ↔
      ¬ ∃ fields xs, v = .jobj fields ∧
        jlookup fields "homeworks" = some (.jarr xs)) ∧
    ∀ fields xs, v = .jobj fields → jlookup fields "homeworks" = some (.jarr xs) →
      check_response v = .ok xs := by
  constructor
  · cases v with
    | jobj fields =>
      cases hl : jlookup fields "homeworks" with
      | none => simp [check_response, hl]
      | some x => cases x <;> simp [check_response, hl]
    | jnull => simp [check_response]
    | jbool b => simp [check_response]
    | jnum n => simp [check_response]
    | jstr s => simp [check_response]
    | jarr xs => simp [check_response]
  · rintro fields xs rfl hsome
    simp [check_response, hsome]

/-- C6 witness: a dict carrying a homeworks list passes and returns it. -/
theorem C6_check_response_witness :
    check_response (.jobj [("homeworks", .jarr [.jnull])]) = .ok [.jnull] :=
  (C6_check_response_contract (.jobj [("homeworks", .jarr [.jnull])])).2
    [("homeworks", .jarr [.jnull])] [.jnull] rfl rfl

/-- C7: a 200 response whose homeworks list is empty makes the iteration
send exactly the single no-updates notification and complete normally with
the cursor unchanged; the record-parsing branch is never entered. -/
theorem C7_empty_homeworks (st : LoopState) (fields : List (String × JValue))
    (h : jlookup fields "homeworks" = some (.jarr [])) :
    (main_iter st (.success 200 (.jobj fields))).sends =
      ["На данный момент обновлений нет"] ∧
    (main_iter st (.success 200 (.jobj fields))).state =
      .ok { timestamp := st.timestamp, response := some (.jobj fields) } := by
  obtain ⟨ts, r⟩ := st
  constructor <;>
    simp [main_iter, get_api_answer, check_response, h]

/-- C7 witness: the empty-homeworks iteration at a concrete state. -/
theorem C7_empty_homeworks_witness :
    (main_iter { timestamp := .jnum 3, response := none }
        (.success 200 (.jobj [("homeworks", .jarr [])]))).sends =
      ["На данный момент обновлений нет"] ∧
    (main_iter { timestamp := .jnum 3, response := none }
        (.success 200 (.jobj [("homeworks", .jarr [])]))).state =
      .ok { timestamp := ({ timestamp := .jnum 3, response := none } : LoopState).timestamp,
            response := some (.jobj [("homeworks", .jarr [])]) } :=
  C7_empty_homeworks { timestamp := .jnum 3, response := none }
    [("homeworks", .jarr [])] rfl

/-- C8: `check_tokens` returns True exactly when the three credentials are
all set and non-empty; with any credential missing, `main` logs the fatal
line and raises SystemExit as its only actions, before `telegram.Bot` or
any network call. -/
theorem C8_tokens_guard (cfg : Config) (now : Int) :
    (check_tokens cfg = some true ↔
      (truthy cfg.practicum_token = true ∧ truthy cfg.telegram_token = true ∧
        truthy cfg.telegram_chat_id = true)) ∧
    (check_tokens cfg ≠ some true →
      main_startup cfg now =
        [.logCritical
            "Отсутствует обязательная переменная окружения.Программа принудительно остановлена.",
         .raiseSystemExit]) := by
  constructor
  · constructor
    · intro hEq
      unfold check_tokens at hEq
      split at hEq
      · next hcond => simpa [Bool.and_eq_true, and_assoc] using hcond
      · exact absurd hEq (by simp)
    · rintro ⟨h1, h2, h3⟩
      simp [check_tokens, h1, h2, h3]
  · intro hne
    unfold main_startup
    cases hct : check_tokens cfg with
    | none => rfl
    | some b =>
      cases b with
      | true => exact absurd hct hne
      | false =>
        exfalso
        unfold check_tokens at hct
        split at hct <;> simp at hct

/-- C8 witness: with the API token unset, startup only logs and exits. -/
theorem C8_tokens_guard_witness :
    (check_tokens { practicum_token := none, telegram_token := some "t",
                    telegram_chat_id := some "c" } = some true ↔
      (truthy (none : Option String) = true ∧ truthy (some "t") = true ∧
        truthy (some "c") = true)) ∧
    (check_tokens { practicum_token := none, telegram_token := some "t",
                    telegram_chat_id := some "c" } ≠ some true →
      main_startup { practicum_token := none, telegram_token := some "t",
                     telegram_chat_id := some "c" } 0 =
        [.logCritical
            "Отсутствует обязательная переменная окружения.Программа принудительно остановлена.",
         .raiseSystemExit]) :=
  C8_tokens_guard { practicum_token := none, telegram_token := some "t",
                    telegram_chat_id := some "c" } 0

/-- Helper: the diagnostic text the KeyError handler sends when
current_date is missing. -/
theorem diag_current_date_fold :
    "Сбой в работе программы: " ++ "current_date" =
      "Сбой в работе программы: current_date" := rfl

/-- C10: `check_response` accepts any dict whose homeworks key holds a
list, never inspecting current_date; on a 200 body with a parseable
non-empty homeworks list but no current_date, the iteration dispatches the
status notification first and only then fails on
`response["current_date"]`, whose KeyError the loop handles by sending a
diagnostic and continuing with the cursor unchanged. -/
theorem C10_dispatch_before_cursor (st : LoopState) (fields : List (String × JValue))
    (hw : JValue) (rest : List JValue) (msg : String)
    (h1 : jlookup fields "homeworks" = some (.jarr (hw :: rest)))
    (h2 : jlookup fields "current_date" = none)
    (h3 : parse_status hw = .ok msg) :
    check_response (.jobj fields) = .ok (hw :: rest) ∧
    (main_iter st (.success 200 (.jobj fields))).sends =
      [msg, "Сбой в работе программы: current_date"] ∧
    (main_iter st (.success 200 (.jobj fields))).state =
      .ok { timestamp := st.timestamp, response := some (.jobj fields) } := by
  obtain ⟨ts, r⟩ := st
  refine ⟨by simp [check_response, h1], ?_, ?_⟩ <;>
    simp [main_iter, get_api_answer, check_response, main_handle, pySubscript,
      h1, h2, h3, diag_current_date_fold]

/-- C10 witness: one approved homework, no current_date in the body. -/
theorem C10_dispatch_before_cursor_witness :
    check_response (.jobj [("homeworks",
        .jarr [.jobj [("homework_name", .jstr "hw"), ("status", .jstr "approved")]])]) =
      .ok [.jobj [("homework_name", .jstr "hw"), ("status", .jstr "approved")]] ∧
    (main_iter { timestamp := .jnum 7, response := none }
        (.success 200 (.jobj [("homeworks",
          .jarr [.jobj [("homework_name", .jstr "hw"), ("status", .jstr "approved")]])]))).sends =
      ["Изменился статус проверки работы \"hw\". Работа проверена: ревьюеру всё понравилось. Ура!",
       "Сбой в работе программы: current_date"] ∧
    (main_iter { timestamp := .jnum 7, response := none }
        (.success 200 (.jobj [("homeworks",
          .jarr [.jobj [("homework_name", .jstr "hw"), ("status", .jstr "approved")]])]))).state =
      .ok { timestamp := ({ timestamp := .jnum 7, response := none } : LoopState).timestamp,
            response := some (.jobj [("homeworks",
              .jarr [.jobj [("homework_name", .jstr "hw"), ("status", .jstr "approved")]])]) } :=
  C10_dispatch_before_cursor { timestamp := .jnum 7, response := none }
    [("homeworks", .jarr [.jobj [("homework_name", .jstr "hw"), ("status", .jstr "approved")]])]
    (.jobj [("homework_name", .jstr "hw"), ("status", .jstr "approved")]) [] _ rfl rfl rfl
